import Mathlib

/-!
Verification development for `src/pipeline.py` (class `CNPJDataPipeline`).

Modelling conventions for the shallow embedding:

- A parsed field is a `Cell := Option String`; `none` models a pandas `NaN`
  produced by `na_values=['', 'NULL', 'null']` in `pd.read_csv` (the literal
  tokens normalised to an absent value).
- `cellStr` models `pandas.Series.astype(str)` applied to such a cell: a
  `NaN` renders as the literal string "nan", a present text value renders as
  itself (the identity-key columns are all declared `str` in the schemas'
  `dtype` maps, so no other conversion applies to them).
- A data row is the positional list of its cells.  Source files carry no
  header row; column identity comes from position via the schema's ordered
  column list (the `names=` argument of `read_csv`), so column access by
  name (`df['c']`) is index lookup of `c` in that list (`getVal`).
- A CSV file is modelled as the list of its parsed rows (the byte-level
  decoding, the `;` separator, the latin1 encoding and the skipping of
  malformed lines happen before the rows exist, and no claim below depends
  on them).
- Parquet writing is modelled by the list of rows (and, for the schema
  claims, the `Frame` of column names and rows) handed to
  `ParquetWriter.write_table`; the on-disk file holds the concatenation of
  all written chunks in write order.  Pandas row indexes and the physical
  snappy compression are below the abstraction level of this model.
-/

namespace Pipeline

/-- A single parsed field: `none` is a pandas `NaN` (absent value). -/
abbrev Cell := Option String

/-- Models `astype(str)` on a cell: pandas renders `NaN` as the text "nan". -/
def cellStr : Cell → String
  | none => "nan"
  | some s => s

/-- The `na_values` list passed to `pd.read_csv` in
`processar_csv_para_parquet`. -/
def na_values : List String := ["", "NULL", "null"]

/-- Parsing of one raw field: the `na_values` tokens normalise to an absent
value, everything else stays text. -/
def parseCampo (s : String) : Cell :=
  if s ∈ na_values then none else some s

/-- Column access by name: `df[c]` on a frame whose ordered column list is
`colunas` reads the cell at the position of `c` in that list.  All accesses
performed by the pipeline are to columns present in the schema. -/
def getVal (colunas : List String) (row : List Cell) (c : String) : Cell :=
  match colunas.findIdx? (fun x => x = c) with
  | some i => row.getD i none
  | none => none

/-- One entry of the schema dictionary built by `_definir_schemas`:
the ordered column list, and the columns whose declared `dtype` is `str`
(every declared dtype in the source is `str`; all cell values are text in
this model, so the dtype map carries no further semantics here). -/
structure SchemaInfo where
  colunas : List String
  dtypes_str : List String
  deriving DecidableEq

/-- The schema dictionary of `CNPJDataPipeline._definir_schemas`, as an
association list in the source's key order. -/
def _definir_schemas : List (String × SchemaInfo) :=
  [("empresas",
    ⟨["cnpj_basico", "razao_social", "natureza_juridica",
      "qualificacao_responsavel", "capital_social",
      "porte_empresa", "ente_federativo_responsavel"],
     ["cnpj_basico", "razao_social", "natureza_juridica",
      "qualificacao_responsavel", "capital_social",
      "porte_empresa", "ente_federativo_responsavel"]⟩),
   ("estabelecimentos",
    ⟨["cnpj_basico", "cnpj_ordem", "cnpj_dv", "identificador_matriz_filial",
      "nome_fantasia", "situacao_cadastral", "data_situacao_cadastral",
      "motivo_situacao_cadastral", "nome_cidade_exterior", "pais",
      "data_inicio_atividade", "cnae_fiscal_principal", "cnae_fiscal_secundaria",
      "tipo_logradouro", "logradouro", "numero", "complemento", "bairro",
      "cep", "uf", "municipio", "ddd_1", "telefone_1", "ddd_2", "telefone_2",
      "ddd_fax", "fax", "correio_eletronico", "situacao_especial",
      "data_situacao_especial"],
     ["cnpj_basico", "cnpj_ordem", "cnpj_dv", "cep",
      "ddd_1", "telefone_1", "ddd_2", "telefone_2"]⟩),
   ("socios",
    ⟨["cnpj_basico", "identificador_socio", "nome_socio",
      "cnpj_cpf_socio", "qualificacao_socio", "data_entrada_sociedade",
      "pais", "representante_legal", "nome_representante",
      "qualificacao_representante_legal", "faixa_etaria"],
     ["cnpj_basico", "cnpj_cpf_socio", "representante_legal"]⟩),
   ("simples",
    ⟨["cnpj_basico", "opcao_simples", "data_opcao_simples",
      "data_exclusao_simples", "opcao_mei", "data_opcao_mei",
      "data_exclusao_mei"],
     ["cnpj_basico"]⟩),
   ("paises", ⟨["codigo", "descricao"], ["codigo"]⟩),
   ("municipios", ⟨["codigo", "descricao"], ["codigo"]⟩),
   ("qualificacoes", ⟨["codigo", "descricao"], ["codigo"]⟩),
   ("naturezas", ⟨["codigo", "descricao"], ["codigo"]⟩),
   ("cnaes", ⟨["codigo", "descricao"], ["codigo"]⟩),
   ("motivos", ⟨["codigo", "descricao"], ["codigo"]⟩)]

/-- The entity types the Schema Registry defines (the dictionary keys, in
source order). -/
def tipos_registrados : List String := _definir_schemas.map Prod.fst

/-- `get_chave_unica`, per row: the identity key of one record of type
`tipo`, where `colunas` is the column list of the frame the row lives in
(`df.columns` at the call sites).  String concatenation of `astype(str)`
column values, mirroring the source branches. -/
def get_chave_unica (tipo : String) (colunas : List String) (row : List Cell) : String :=
  if tipo = "empresas" then
    cellStr (getVal colunas row "cnpj_basico")
  else if tipo = "estabelecimentos" then
    cellStr (getVal colunas row "cnpj_basico") ++
      cellStr (getVal colunas row "cnpj_ordem") ++
      cellStr (getVal colunas row "cnpj_dv")
  else if tipo = "socios" then
    cellStr (getVal colunas row "cnpj_basico") ++ "|" ++
      cellStr (getVal colunas row "cnpj_cpf_socio")
  else if tipo = "simples" then
    cellStr (getVal colunas row "cnpj_basico")
  else if "codigo" ∈ colunas then
    cellStr (getVal colunas row "codigo")
  else
    String.intercalate "|" (row.map cellStr)

/-- Per-character lowercasing; models Python `str.lower()` on the ASCII
filenames the pipeline sees. -/
def lowerStr (s : String) : String :=
  String.mk (s.toList.map Char.toLower)

/-- Whether the first list occurs at the very start of the second. -/
def beginsWith : List Char → List Char → Bool
  | [], _ => true
  | _ :: _, [] => false
  | a :: as, b :: bs => a == b && beginsWith as bs

/-- Whether `needle` occurs contiguously anywhere in the haystack. -/
def occursIn (needle : List Char) : List Char → Bool
  | [] => beginsWith needle []
  | h :: t => beginsWith needle (h :: t) || occursIn needle t

/-- Python's substring test `needle in hay`. -/
def containsTok (hay needle : String) : Bool :=
  occursIn needle.toList hay.toList

/-- `identificar_tipo_arquivo`: the Type Classifier, a first-match-wins
chain of case-insensitive substring tests on the filename. -/
def identificar_tipo_arquivo (nome_arquivo : String) : String :=
  let nome_lower := lowerStr nome_arquivo
  if containsTok nome_lower "empre" then "empresas"
  else if containsTok nome_lower "estabe" || containsTok nome_lower "estable" then
    "estabelecimentos"
  else if containsTok nome_lower "socio" then "socios"
  else if containsTok nome_lower "simples" then "simples"
  else if containsTok nome_lower "pais" then "paises"
  else if containsTok nome_lower "munic" then "municipios"
  else if containsTok nome_lower "quals" then "qualificacoes"
  else if containsTok nome_lower "natju" then "naturezas"
  else if containsTok nome_lower "cnae" then "cnaes"
  else if containsTok nome_lower "moti" then "motivos"
  else "desconhecido"

/-- Keep-first deduplication by key, with the set of already-seen keys made
explicit; this is the semantics of `DataFrame.drop_duplicates` (default
`keep='first'`) on the key column. -/
def dedupGo {α κ : Type} [DecidableEq κ] (f : α → κ) (seen : List κ) : List α → List α
  | [] => []
  | r :: rs =>
    if f r ∈ seen then dedupGo f seen rs
    else r :: dedupGo f (f r :: seen) rs

/-- `drop_duplicates` keyed by `f`, keeping the first occurrence. -/
def drop_duplicates {α κ : Type} [DecidableEq κ] (f : α → κ) (l : List α) : List α :=
  dedupGo f [] l

/-- The dedup idiom of the source, literally: append the key as the
technical column `_chave_unica`, run `drop_duplicates(subset=['_chave_unica'])`,
then drop the technical column again. -/
def dedup_por_chave {α κ : Type} [DecidableEq κ] (f : α → κ) (rows : List α) : List α :=
  List.map Prod.fst
    (drop_duplicates (fun p : α × κ => p.2) (rows.map (fun r => (r, f r))))

/-- The fixed chunk bound of `processar_csv_para_parquet`. -/
def chunk_size : Nat := 100000

/-- Fuelled worker for `chunksOf`; the fuel is the list length, which
suffices for every positive chunk bound. -/
def chunksOfAux {α : Type} (n : Nat) : Nat → List α → List (List α)
  | _, [] => []
  | 0, _ :: _ => []
  | fuel + 1, r :: rs =>
    if (r :: rs).length ≤ n then [r :: rs]
    else List.take n (r :: rs) :: chunksOfAux n fuel (List.drop n (r :: rs))

/-- Split a list into consecutive chunks of at most `n` rows: the
`chunksize=` iteration of `pd.read_csv` over one file. -/
def chunksOf {α : Type} (n : Nat) (l : List α) : List (List α) :=
  chunksOfAux n l.length l

/-- One source file through the chunk loop of `processar_csv_para_parquet`:
each chunk is deduplicated within itself (via the `_chave_unica` column) and
the surviving rows are appended to the output in order. -/
def processar_arquivo {α κ : Type} [DecidableEq κ] (f : α → κ) (rows : List α) : List α :=
  ((chunksOf chunk_size rows).map (dedup_por_chave f)).flatten

/-- `processar_csv_para_parquet` at row level: all files of one type, in
list order, each through the chunk loop; the Parquet file receives the
concatenation of all written chunks. -/
def processar_csv_para_parquet (tipo : String) (colunas : List String)
    (arquivos : List (List (List Cell))) : List (List Cell) :=
  (arquivos.map (processar_arquivo (get_chave_unica tipo colunas))).flatten

/-- `deduplicar_parquet` on the contents of an existing Parquet file: read
all rows, append the recomputed `_chave_unica` column, drop duplicate keys
keeping the first occurrence in on-disk order, drop the technical column,
and rewrite the file with the result.  (A missing file is skipped with a
warning in the source; the claims below address the existing-file case.) -/
def deduplicar_parquet (tipo : String) (colunas : List String)
    (rows : List (List Cell)) : List (List Cell) :=
  dedup_por_chave (get_chave_unica tipo colunas) rows

/-- A pandas/Arrow frame at column-name granularity: ordered column names
plus positional rows. -/
structure Frame where
  colunas : List String
  rows : List (List Cell)
  deriving DecidableEq

/-- One chunk of `processar_csv_para_parquet` at frame level, tracking both
the column list and the pandas row index through the source's steps.  The
chunk arrives from `read_csv` with a RangeIndex (modelled by `List.enum`
labels); `chunk['_chave_unica'] = chave` appends the key column;
`drop_duplicates(subset=['_chave_unica'])` keeps the first row per key
together with its original label; `chunk.drop(columns=['_chave_unica'])`
removes the appended column.  `pa.Table.from_pandas` with its default index
handling stores a RangeIndex as file metadata only — a chunk from which no
row was dropped contributes exactly the schema columns — but a chunk from
which `drop_duplicates` removed a row no longer carries a RangeIndex, and
its integer index is serialized as an extra trailing column named
`__index_level_0__` (its int64 labels appear here as decimal text, which
suffices to track column names and row counts). -/
def processar_chunk (tipo : String) (si : SchemaInfo) (chunk : List (List Cell)) : Frame :=
  let cols_chave := si.colunas ++ ["_chave_unica"]
  let com_chave : List (Nat × List Cell) :=
    (chunk.map (fun r => r ++ [some (get_chave_unica tipo si.colunas r)])).enum
  let sem_dup : List (Nat × List Cell) :=
    drop_duplicates (fun p => cellStr (getVal cols_chave p.2 "_chave_unica")) com_chave
  let dados : List (Nat × List Cell) :=
    sem_dup.map (fun p => (p.1, p.2.take si.colunas.length))
  if sem_dup.length = chunk.length then
    ⟨si.colunas, dados.map Prod.snd⟩
  else
    ⟨si.colunas ++ ["__index_level_0__"],
     dados.map (fun p => p.2 ++ [some (toString p.1)])⟩

/-- The write loop of one file's chunks under an already-created writer
schema `ws`: `writer.write_table` appends tables while their schema matches
the writer's; the first mismatch raises inside the per-file `try`, and the
rest of that file's chunks are skipped. -/
def escrever_tabelas (ws : List String) : List Frame → List Frame
  | [] => []
  | F :: Fs => if F.colunas = ws then F :: escrever_tabelas ws Fs else []

/-- The write loop over all files of one type: the `ParquetWriter` is
created lazily at the first produced table, with that table's schema; later
tables append only while they conform, a mismatch aborting the remainder of
its own file only (the per-file `except` catches it and the next file is
still attempted, against the same writer). -/
def escrever_arquivos (ws : Option (List String)) : List (List Frame) → List Frame
  | [] => []
  | tables :: files =>
    match ws with
    | some s => escrever_tabelas s tables ++ escrever_arquivos (some s) files
    | none =>
      match tables with
      | [] => escrever_arquivos none files
      | F :: Fs =>
        F :: escrever_tabelas F.colunas Fs ++ escrever_arquivos (some F.colunas) files

/-- The sequence of Arrow tables actually written to one entity type's
Parquet file: per file, per chunk, the processed frame, filtered by the
writer's schema-conformance behaviour. -/
def tabelas_escritas (tipo : String) (si : SchemaInfo)
    (arquivos : List (List (List Cell))) : List Frame :=
  escrever_arquivos none
    (arquivos.map (fun rows => (chunksOf chunk_size rows).map (processar_chunk tipo si)))

/-- One extracted file in the scratch directory `temp_extraidos`: its
filename, its parsed rows, and whether it sits in a subdirectory (as opposed
to the top level of the scratch directory). -/
structure ArquivoCSV where
  nome : String
  linhas : List (List Cell)
  subdir : Bool
  deriving DecidableEq

/-- `renomear_todos_para_csv`: every extracted file is renamed in place by
appending the `.csv` suffix. -/
def renomear_todos_para_csv (temp : List ArquivoCSV) : List ArquivoCSV :=
  temp.map (fun a => ⟨a.nome ++ ".csv", a.linhas, a.subdir⟩)

/-- `extrair_zips`: each archive's entries land in the shared scratch
directory (structure preserved), then everything is renamed to `*.csv`. -/
def extrair_zips (zips : List (List ArquivoCSV)) : List ArquivoCSV :=
  renomear_todos_para_csv zips.flatten

/-- Whether a filename matches the `*.csv` glob pattern. -/
def temSufixoCsv (nome : String) : Bool :=
  beginsWith ".csv".toList.reverse nome.toList.reverse

/-- The file listing of `agrupar_arquivos_por_tipo`:
`list(glob('*.csv')) + list(glob('**/*.csv'))`.  The first pattern matches
only top-level files; the second (`**` meaning this directory and all
subdirectories, recursively) matches top-level and subdirectory files
alike. -/
def listar_csvs (temp : List ArquivoCSV) : List ArquivoCSV :=
  temp.filter (fun a => !a.subdir && temSufixoCsv a.nome) ++
    temp.filter (fun a => temSufixoCsv a.nome)

/-- Append a file to its type's bucket in an insertion-ordered association
list, as the Python dict-of-lists does. -/
def inserirPorTipo (m : List (String × List ArquivoCSV)) (tipo : String)
    (a : ArquivoCSV) : List (String × List ArquivoCSV) :=
  match m with
  | [] => [(tipo, [a])]
  | (t, fs) :: rest =>
    if t = tipo then (t, fs ++ [a]) :: rest
    else (t, fs) :: inserirPorTipo rest tipo a

/-- `agrupar_arquivos_por_tipo`: classify every listed file and group the
non-`desconhecido` ones by type, preserving listing order. -/
def agrupar_arquivos_por_tipo (temp : List ArquivoCSV) :
    List (String × List ArquivoCSV) :=
  (listar_csvs temp).foldl
    (fun m a =>
      let tipo := identificar_tipo_arquivo a.nome
      if tipo ≠ "desconhecido" then inserirPorTipo m tipo a else m)
    []

/-- `executar_pipeline` at row level: extract, group, ingest each grouped
type (when its schema exists), then run the cross-shard dedup pass on each
produced Parquet; the result maps each type to its final row list. -/
def executar_pipeline (zips : List (List ArquivoCSV)) :
    List (String × List (List Cell)) :=
  let temp := extrair_zips zips
  let grupos := agrupar_arquivos_por_tipo temp
  grupos.filterMap (fun g =>
    match List.lookup g.1 _definir_schemas with
    | none => none
    | some si =>
      some (g.1,
        deduplicar_parquet g.1 si.colunas
          (processar_csv_para_parquet g.1 si.colunas
            (g.2.map ArquivoCSV.linhas))))

/-! ### Generic facts about keep-first deduplication -/

theorem filter_dedupGo {α κ : Type} [DecidableEq κ] (f : α → κ) (k : κ)
    (l : List α) : ∀ seen : List κ,
    (dedupGo f seen l).filter (fun r => f r = k)
      = if k ∈ seen then [] else (l.filter (fun r => f r = k)).take 1 := by
  induction l with
  | nil => intro seen; simp [dedupGo]
  | cons r rs ih =>
    intro seen
    by_cases hs : f r ∈ seen
    · rw [dedupGo, if_pos hs, ih seen]
      by_cases hk : k ∈ seen
      · simp [hk]
      · have hne : f r ≠ k := fun h => hk (h ▸ hs)
        simp [hk, List.filter_cons, hne]
    · rw [dedupGo, if_neg hs, List.filter_cons]
      by_cases hrk : f r = k
      · have hk : k ∉ seen := fun h => hs (hrk ▸ h)
        rw [ih (f r :: seen)]
        simp [hrk, hk, List.filter_cons]
      · rw [ih (f r :: seen)]
        by_cases hk : k ∈ seen
        · simp [hk, hrk]
        · have hne : k ∉ f r :: seen := by
            simp only [List.mem_cons, not_or]
            exact ⟨fun h => hrk h.symm, hk⟩
          simp [hk, hrk, hne, List.filter_cons]

theorem not_seen_of_mem_dedupGo {α κ : Type} [DecidableEq κ] (f : α → κ)
    (l : List α) : ∀ (seen : List κ) (x : α), x ∈ dedupGo f seen l → f x ∉ seen := by
  induction l with
  | nil => intro seen x hx; simp [dedupGo] at hx
  | cons r rs ih =>
    intro seen x hx
    rw [dedupGo] at hx
    by_cases hs : f r ∈ seen
    · rw [if_pos hs] at hx
      exact ih seen x hx
    · rw [if_neg hs] at hx
      rcases List.mem_cons.mp hx with h | h
      · subst h; exact hs
      · exact fun hxs => ih (f r :: seen) x h (List.mem_cons_of_mem _ hxs)

theorem pairwise_dedupGo {α κ : Type} [DecidableEq κ] (f : α → κ)
    (l : List α) : ∀ seen : List κ,
    (dedupGo f seen l).Pairwise (fun a b => f a ≠ f b) := by
  induction l with
  | nil => intro seen; simp [dedupGo]
  | cons r rs ih =>
    intro seen
    rw [dedupGo]
    by_cases hs : f r ∈ seen
    · rw [if_pos hs]; exact ih seen
    · rw [if_neg hs]
      refine List.Pairwise.cons (fun b hb h => ?_) (ih (f r :: seen))
      exact not_seen_of_mem_dedupGo f rs (f r :: seen) b hb
        (by rw [← h]; exact List.mem_cons_self _ _)

theorem dedupGo_eq_self {α κ : Type} [DecidableEq κ] (f : α → κ)
    (l : List α) : ∀ seen : List κ, (∀ x ∈ l, f x ∉ seen) →
    l.Pairwise (fun a b => f a ≠ f b) → dedupGo f seen l = l := by
  induction l with
  | nil => intro seen _ _; rfl
  | cons r rs ih =>
    intro seen h1 h2
    have hh := List.pairwise_cons.mp h2
    rw [dedupGo, if_neg (h1 r (List.mem_cons_self r rs))]
    congr 1
    refine ih (f r :: seen) (fun x hx hmem => ?_) hh.2
    rcases List.mem_cons.mp hmem with h | h
    · exact hh.1 x hx h.symm
    · exact h1 x (List.mem_cons_of_mem _ hx) h

theorem dedupGo_map {α β κ : Type} [DecidableEq κ] (f : α → κ) (g : β → α)
    (l : List β) : ∀ seen : List κ,
    dedupGo f seen (l.map g) = (dedupGo (fun b => f (g b)) seen l).map g := by
  induction l with
  | nil => intro seen; rfl
  | cons b t ih =>
    intro seen
    rw [List.map_cons, dedupGo, dedupGo]
    by_cases hs : f (g b) ∈ seen
    · rw [if_pos hs, if_pos hs, ih seen]
    · rw [if_neg hs, if_neg hs, List.map_cons, ih (f (g b) :: seen)]

theorem drop_duplicates_filter {α κ : Type} [DecidableEq κ] (f : α → κ) (k : κ)
    (l : List α) :
    (drop_duplicates f l).filter (fun r => f r = k)
      = (l.filter (fun r => f r = k)).take 1 := by
  simpa [drop_duplicates] using filter_dedupGo f k l []

theorem pairwise_drop_duplicates {α κ : Type} [DecidableEq κ] (f : α → κ)
    (l : List α) : (drop_duplicates f l).Pairwise (fun a b => f a ≠ f b) :=
  pairwise_dedupGo f l []

theorem drop_duplicates_idem {α κ : Type} [DecidableEq κ] (f : α → κ)
    (l : List α) :
    drop_duplicates f (drop_duplicates f l) = drop_duplicates f l :=
  dedupGo_eq_self f _ [] (by simp) (pairwise_drop_duplicates f l)

theorem dedup_por_chave_eq {α κ : Type} [DecidableEq κ] (f : α → κ)
    (rows : List α) : dedup_por_chave f rows = drop_duplicates f rows := by
  unfold dedup_por_chave drop_duplicates
  rw [dedupGo_map (fun p : α × κ => p.2) (fun r => (r, f r)) rows [], List.map_map]
  exact List.map_id _

theorem processar_flatten {α κ : Type} [DecidableEq κ] (f : α → κ)
    (arquivos : List (List α)) :
    (arquivos.map (processar_arquivo f)).flatten
      = ((arquivos.map (chunksOf chunk_size)).flatten.map (dedup_por_chave f)).flatten := by
  induction arquivos with
  | nil => rfl
  | cons a t ih =>
    simp only [List.map_cons, List.flatten_cons, List.map_append, List.flatten_append,
      ih, processar_arquivo]

theorem lookup_mem {α β : Type} [BEq α] [LawfulBEq α] {l : List (α × β)}
    {a : α} {b : β} (h : List.lookup a l = some b) : (a, b) ∈ l := by
  induction l with
  | nil => simp [List.lookup] at h
  | cons p t ih =>
    obtain ⟨k, v⟩ := p
    rw [List.lookup] at h
    split at h
    · rename_i hak
      obtain rfl : v = b := by injection h
      obtain rfl : a = k := eq_of_beq hak
      exact List.mem_cons_self _ _
    · exact List.mem_cons_of_mem _ (ih h)

theorem length_take_one_of_mem {α : Type} {x : α} {l : List α} (h : x ∈ l) :
    (l.take 1).length = 1 := by
  cases l with
  | nil => simp at h
  | cons a t => simp

/-! ### Claim theorems -/

/-- C1: after a successful run of the Cross-Shard Deduplicator
(`deduplicar_parquet`) on an entity type's output, any two distinct rows of
the final output have different Identity Keys: the surviving row list is
pairwise key-distinct. -/
theorem C1_chaves_distintas_apos_dedup (tipo : String) (colunas : List String)
    (rows : List (List Cell)) :
    (deduplicar_parquet tipo colunas rows).Pairwise
      (fun a b => get_chave_unica tipo colunas a ≠ get_chave_unica tipo colunas b) := by
  unfold deduplicar_parquet
  rw [dedup_por_chave_eq]
  exact pairwise_drop_duplicates _ rows

/-- C2: the Cross-Shard Deduplicator is idempotent: running
`deduplicar_parquet` a second time on the output of a first pass returns
exactly the same row list, so the second pass drops zero rows. -/
theorem C2_dedup_idempotente (tipo : String) (colunas : List String)
    (rows : List (List Cell)) :
    deduplicar_parquet tipo colunas (deduplicar_parquet tipo colunas rows)
        = deduplicar_parquet tipo colunas rows ∧
      (deduplicar_parquet tipo colunas rows).length -
        (deduplicar_parquet tipo colunas (deduplicar_parquet tipo colunas rows)).length
        = 0 := by
  have h : deduplicar_parquet tipo colunas (deduplicar_parquet tipo colunas rows)
      = deduplicar_parquet tipo colunas rows := by
    simp only [deduplicar_parquet, dedup_por_chave_eq]
    exact drop_duplicates_idem _ rows
  exact ⟨h, by rw [h, Nat.sub_self]⟩

/-- C8: the Type Classifier on the three concrete filenames of the spec:
an establishment shard name classifies as "estabelecimentos", a
tax-regime-election shard name as "simples", and an unrecognised name as
"desconhecido" (the unknown value). -/
theorem C8_classificador_concreto :
    identificar_tipo_arquivo "K3241.K03200Y1.D50510.ESTABELE" = "estabelecimentos" ∧
    identificar_tipo_arquivo "F.K03200$W.SIMPLES.csv.csv" = "simples" ∧
    identificar_tipo_arquivo "random_readme.pdf" = "desconhecido" := by
  decide

/-- C9 (counterexample): the fixed set of Entity Types defined by the
Schema Registry does not have nine members. -/
theorem C9_nao_sao_nove : tipos_registrados.length ≠ 9 := by decide

/-- C9 (amended): the fixed closed set of Entity Types has exactly ten
members: the Schema Registry defines ten pairwise-distinct types, every
value the Type Classifier returns is either "desconhecido" or one of those
ten, and each of the ten is attained by the classifier. -/
theorem C9_dez_tipos :
    tipos_registrados.length = 10 ∧
    tipos_registrados.Nodup ∧
    (∀ nome : String, identificar_tipo_arquivo nome = "desconhecido" ∨
      identificar_tipo_arquivo nome ∈ tipos_registrados) ∧
    ["empre", "estabe", "socio", "simples", "pais", "munic", "quals",
      "natju", "cnae", "moti"].map identificar_tipo_arquivo = tipos_registrados := by
  refine ⟨by decide, by decide, ?_, by decide⟩
  intro nome
  simp only [identificar_tipo_arquivo]
  repeat' split
  all_goals decide

/-- The top-level establishment shard used as the failing input of C6. -/
def arqTopo : ArquivoCSV := ⟨"K3241.K03200Y1.D50510.ESTABELE.csv", [], false⟩

/-- The same file placed in a subdirectory of the scratch directory. -/
def arqSub : ArquivoCSV := ⟨"K3241.K03200Y1.D50510.ESTABELE.csv", [], true⟩

/-- C6 (evaluation at the failing input): a suffixed file at the top level
of the scratch directory appears twice in its type's list — both
`glob('*.csv')` and `glob('**/*.csv')` match it — while a file in a
subdirectory appears once. -/
theorem C6_toplevel_listado_duas_vezes :
    List.lookup "estabelecimentos" (agrupar_arquivos_por_tipo [arqTopo])
        = some [arqTopo, arqTopo] ∧
      List.lookup "estabelecimentos" (agrupar_arquivos_por_tipo [arqSub])
        = some [arqSub] := by
  decide

/-- An establishment row: the three key cells, one distinguishing cell, and
26 absent cells completing the 30-column schema. -/
def linhaEstab (cb ordem dv extra : String) : List Cell :=
  [some cb, some ordem, some dv, some extra] ++ List.replicate 26 (none : Cell)

/-- C4 scenario: one archive holding two establishment files of 3 and 2
rows, one row byte-identical across the two files. -/
def zips_cenario : List (List ArquivoCSV) :=
  [[⟨"K3241.K03200Y1.D50510.ESTABELE",
     [linhaEstab "11111111" "0001" "91" "a",
      linhaEstab "11111111" "0002" "72" "b",
      linhaEstab "22222222" "0001" "35" "c"], false⟩,
    ⟨"K3241.K03200Y2.D50510.ESTABELE",
     [linhaEstab "11111111" "0002" "72" "b",
      linhaEstab "33333333" "0001" "80" "d"], false⟩]]

/-- C4: the full pipeline (extraction, grouping, chunked ingestion,
cross-shard dedup) on the two-file scenario produces a final
"estabelecimentos" output of exactly 4 rows: the five distinct source rows
minus the one duplicate, in first-written order. -/
theorem C4_cenario_ponta_a_ponta :
    executar_pipeline zips_cenario
        = [("estabelecimentos",
            [linhaEstab "11111111" "0001" "91" "a",
             linhaEstab "11111111" "0002" "72" "b",
             linhaEstab "22222222" "0001" "35" "c",
             linhaEstab "33333333" "0001" "80" "d"])] ∧
      (executar_pipeline zips_cenario).map (fun p => (p.1, p.2.length))
        = [("estabelecimentos", 4)] := by
  constructor
  · decide
  · decide

/-- C3: if a key appears in two different chunks of one type's ingestion —
chunk `ci` earlier, chunk `cj` later in write order, across a chunk or file
boundary — and the later occurrence `r2` is the first row with that key
inside its own chunk, then the intra-chunk deduplication does not remove
`r2` (it still reaches the output), at least two rows with that key reach
the Columnar Output File, and the subsequent Cross-Shard Deduplicator keeps
exactly the first row with that key in on-disk write order (the `take 1` of
the file's rows with that key). -/
theorem C3_duplicados_entre_chunks (tipo : String) (colunas : List String)
    (arquivos : List (List (List Cell)))
    (A B C : List (List (List Cell))) (ci cj : List (List Cell))
    (pre post : List (List Cell)) (r1 r2 : List Cell)
    (hsplit : (arquivos.map (chunksOf chunk_size)).flatten = A ++ ci :: (B ++ cj :: C))
    (hr1 : r1 ∈ ci)
    (hcj : cj = pre ++ r2 :: post)
    (hk : get_chave_unica tipo colunas r1 = get_chave_unica tipo colunas r2)
    (hpre : ∀ r ∈ pre,
      get_chave_unica tipo colunas r ≠ get_chave_unica tipo colunas r2) :
    r2 ∈ processar_csv_para_parquet tipo colunas arquivos ∧
    2 ≤ ((processar_csv_para_parquet tipo colunas arquivos).filter
        (fun r => get_chave_unica tipo colunas r = get_chave_unica tipo colunas r2)).length ∧
    (deduplicar_parquet tipo colunas
        (processar_csv_para_parquet tipo colunas arquivos)).filter
        (fun r => get_chave_unica tipo colunas r = get_chave_unica tipo colunas r2)
      = ((processar_csv_para_parquet tipo colunas arquivos).filter
          (fun r => get_chave_unica tipo colunas r = get_chave_unica tipo colunas r2)).take 1 := by
  set f := get_chave_unica tipo colunas with hf
  have hL : processar_csv_para_parquet tipo colunas arquivos
      = ((A ++ ci :: (B ++ cj :: C)).map (dedup_por_chave f)).flatten := by
    rw [processar_csv_para_parquet, processar_flatten, hsplit]
  have h_cj : (dedup_por_chave f cj).filter (fun r => f r = f r2) = [r2] := by
    rw [dedup_por_chave_eq, drop_duplicates_filter, hcj, List.filter_append]
    have hpre0 : pre.filter (fun r => f r = f r2) = [] := by
      rw [List.filter_eq_nil_iff]
      intro r hr
      simpa using hpre r hr
    rw [hpre0, List.filter_cons]
    simp
  have h_ci : ((dedup_por_chave f ci).filter (fun r => f r = f r2)).length = 1 := by
    rw [dedup_por_chave_eq, drop_duplicates_filter]
    exact length_take_one_of_mem (List.mem_filter.mpr ⟨hr1, by simp [hk]⟩)
  have hr2mem : r2 ∈ dedup_por_chave f cj :=
    List.mem_of_mem_filter (h_cj ▸ List.mem_singleton.mpr rfl)
  refine ⟨?_, ?_, ?_⟩
  · rw [hL]
    simp only [List.map_append, List.map_cons, List.flatten_append, List.flatten_cons,
      List.mem_append, List.mem_flatten]
    tauto
  · rw [hL]
    simp only [List.map_append, List.map_cons, List.flatten_append, List.flatten_cons,
      List.filter_append, List.length_append, h_ci]
    have := congrArg List.length h_cj
    simp only [List.length_singleton] at this
    omega
  · simp only [deduplicar_parquet, dedup_por_chave_eq]
    exact drop_duplicates_filter f (f r2) _

/-- A partner (socios) row with company root "123" and partner tax id
"00011122233", distinguishable by the partner name cell. -/
def linhaSocio1 : List Cell :=
  [some "123", none, some "ana", some "00011122233"] ++ List.replicate 7 (none : Cell)

/-- A second partner row with the same identity key as `linhaSocio1`. -/
def linhaSocio2 : List Cell :=
  [some "123", none, some "bia", some "00011122233"] ++ List.replicate 7 (none : Cell)

/-- Two one-row socios files whose single rows share an identity key. -/
def arquivosC3 : List (List (List Cell)) := [[linhaSocio1], [linhaSocio2]]

/-- The column list the Schema Registry declares for a type (empty for an
unregistered type). -/
def colunasDe (tipo : String) : List String :=
  match List.lookup tipo _definir_schemas with
  | some si => si.colunas
  | none => []

/-- C3 witness: the theorem instantiated at two one-row socios files whose
rows share an identity key across the file boundary. -/
theorem C3_witness :
    ((arquivosC3.map (chunksOf chunk_size)).flatten
        = [] ++ [linhaSocio1] :: ([] ++ [linhaSocio2] :: [])) ∧
    (linhaSocio2 ∈ processar_csv_para_parquet "socios" (colunasDe "socios") arquivosC3 ∧
      2 ≤ ((processar_csv_para_parquet "socios" (colunasDe "socios") arquivosC3).filter
          (fun r => get_chave_unica "socios" (colunasDe "socios") r
            = get_chave_unica "socios" (colunasDe "socios") linhaSocio2)).length ∧
      (deduplicar_parquet "socios" (colunasDe "socios")
          (processar_csv_para_parquet "socios" (colunasDe "socios") arquivosC3)).filter
          (fun r => get_chave_unica "socios" (colunasDe "socios") r
            = get_chave_unica "socios" (colunasDe "socios") linhaSocio2)
        = ((processar_csv_para_parquet "socios" (colunasDe "socios") arquivosC3).filter
            (fun r => get_chave_unica "socios" (colunasDe "socios") r
              = get_chave_unica "socios" (colunasDe "socios") linhaSocio2)).take 1) :=
  ⟨by decide,
   C3_duplicados_entre_chunks "socios" (colunasDe "socios") arquivosC3
     [] [] [] [linhaSocio1] [linhaSocio2] [] [] linhaSocio1 linhaSocio2
     (by decide) (by decide) rfl (by decide) (by decide)⟩

/-- The Schema Registry entry for "empresas", used by the C5 evaluation. -/
def siEmp : SchemaInfo :=
  ⟨["cnpj_basico", "razao_social", "natureza_juridica", "qualificacao_responsavel",
    "capital_social", "porte_empresa", "ente_federativo_responsavel"],
   ["cnpj_basico", "razao_social", "natureza_juridica", "qualificacao_responsavel",
    "capital_social", "porte_empresa", "ente_federativo_responsavel"]⟩

/-- One empresas file of two rows sharing the identity key "123": an
intra-chunk duplicate, the failing input of C5. -/
def arquivosC5 : List (List (List Cell)) :=
  [[[some "123", some "ACME", none, none, none, none, none],
    [some "123", some "ACME SA", none, none, none, none, none]]]

/-- A one-row empresas file with no duplicate, whose single chunk keeps its
RangeIndex and fixes the writer's schema at the registry columns. -/
def arquivoLimpoC5 : List (List Cell) :=
  [[some "999", some "UMA", none, none, none, none, none]]

/-- C5 (evaluation at the failing input): a chunk from which intra-chunk
dedup dropped a row is written with the extra trailing `__index_level_0__`
column, so the written schema is not exactly the registry's declared column
list; and when a clean first file has already fixed the writer's schema,
the mismatching duplicate-bearing chunk raises and its rows are silently
dropped — only the clean table is written. -/
theorem C5_indice_serializado :
    (tabelas_escritas "empresas" siEmp arquivosC5).map Frame.colunas
        = [siEmp.colunas ++ ["__index_level_0__"]] ∧
      ¬ (∀ F ∈ tabelas_escritas "empresas" siEmp arquivosC5,
          F.colunas = siEmp.colunas) ∧
      (tabelas_escritas "empresas" siEmp
          (arquivoLimpoC5 :: arquivosC5)).map Frame.colunas
        = [siEmp.colunas] := by
  decide

/-- C10: an absent key-column value contributes the literal text "nan" to
the Identity Key.  Concretely: the `na_values` tokens ("" / "NULL" /
"null") all render as "nan" under `astype(str)`; the key function depends
only on the row's own cells (for every type); a socios row whose
`cnpj_cpf_socio` is absent gets the key `cb ++ "|" ++ "nan"`; two such rows
with the same company root get equal keys; and after the dedup pass exactly
one row with that key survives, so all but the first are dropped. -/
theorem C10_nan_conflacao (colunas : List String) (cb : String)
    (r1 r2 : List Cell) (pre mid post : List (List Cell))
    (h1 : getVal colunas r1 "cnpj_basico" = some cb)
    (h2 : getVal colunas r2 "cnpj_basico" = some cb)
    (h3 : getVal colunas r1 "cnpj_cpf_socio" = none)
    (h4 : getVal colunas r2 "cnpj_cpf_socio" = none) :
    (∀ s ∈ na_values, cellStr (parseCampo s) = "nan") ∧
    (∀ (tipo : String) (cols : List String) (a b : List Cell),
      (∀ c : String, getVal cols a c = getVal cols b c) →
      a.map cellStr = b.map cellStr →
      get_chave_unica tipo cols a = get_chave_unica tipo cols b) ∧
    get_chave_unica "socios" colunas r1 = cb ++ "|" ++ "nan" ∧
    get_chave_unica "socios" colunas r2 = get_chave_unica "socios" colunas r1 ∧
    ((deduplicar_parquet "socios" colunas (pre ++ r1 :: (mid ++ r2 :: post))).filter
        (fun r => get_chave_unica "socios" colunas r = cb ++ "|" ++ "nan")).length
      = 1 := by
  have hsoc : ∀ r : List Cell, get_chave_unica "socios" colunas r
      = cellStr (getVal colunas r "cnpj_basico") ++ "|" ++
        cellStr (getVal colunas r "cnpj_cpf_socio") := fun r => rfl
  have key1 : get_chave_unica "socios" colunas r1 = cb ++ "|" ++ "nan" := by
    rw [hsoc, h1, h3]; rfl
  have key2 : get_chave_unica "socios" colunas r2 = cb ++ "|" ++ "nan" := by
    rw [hsoc, h2, h4]; rfl
  refine ⟨by decide, ?_, key1, key2.trans key1.symm, ?_⟩
  · intro tipo cols a b hg hm
    simp only [get_chave_unica]
    split_ifs <;> simp only [hg, hm]
  · simp only [deduplicar_parquet, dedup_por_chave_eq]
    rw [drop_duplicates_filter]
    have hmem : r1 ∈ (pre ++ r1 :: (mid ++ r2 :: post)).filter
        (fun r => get_chave_unica "socios" colunas r = cb ++ "|" ++ "nan") :=
      List.mem_filter.mpr ⟨by simp, by simp [key1]⟩
    exact length_take_one_of_mem hmem

/-- A socios row whose partner tax identifier is absent (normalized from an
empty or NULL field), company root "123". -/
def linhaSocioSemCpf1 : List Cell :=
  [some "123", some "2", some "ana", none] ++ List.replicate 7 (none : Cell)

/-- A second socios row, different partner name, same company root and the
same absent partner tax identifier. -/
def linhaSocioSemCpf2 : List Cell :=
  [some "123", some "2", some "bia", none] ++ List.replicate 7 (none : Cell)

/-- C10 witness: the theorem instantiated at two concrete socios rows with
absent `cnpj_cpf_socio` and the socios registry columns. -/
theorem C10_witness :
    (getVal (colunasDe "socios") linhaSocioSemCpf1 "cnpj_basico" = some "123" ∧
      getVal (colunasDe "socios") linhaSocioSemCpf2 "cnpj_basico" = some "123" ∧
      getVal (colunasDe "socios") linhaSocioSemCpf1 "cnpj_cpf_socio" = none ∧
      getVal (colunasDe "socios") linhaSocioSemCpf2 "cnpj_cpf_socio" = none) ∧
    ((∀ s ∈ na_values, cellStr (parseCampo s) = "nan") ∧
      (∀ (tipo : String) (cols : List String) (a b : List Cell),
        (∀ c : String, getVal cols a c = getVal cols b c) →
        a.map cellStr = b.map cellStr →
        get_chave_unica tipo cols a = get_chave_unica tipo cols b) ∧
      get_chave_unica "socios" (colunasDe "socios") linhaSocioSemCpf1
        = "123" ++ "|" ++ "nan" ∧
      get_chave_unica "socios" (colunasDe "socios") linhaSocioSemCpf2
        = get_chave_unica "socios" (colunasDe "socios") linhaSocioSemCpf1 ∧
      ((deduplicar_parquet "socios" (colunasDe "socios")
          ([] ++ linhaSocioSemCpf1 :: ([] ++ linhaSocioSemCpf2 :: []))).filter
          (fun r => get_chave_unica "socios" (colunasDe "socios") r
            = "123" ++ "|" ++ "nan")).length = 1) :=
  ⟨⟨by decide, by decide, by decide, by decide⟩,
   C10_nan_conflacao (colunasDe "socios") "123" linhaSocioSemCpf1 linhaSocioSemCpf2
     [] [] [] (by decide) (by decide) (by decide) (by decide)⟩

end Pipeline
